import Mathlib

/-!
Shallow embedding of the CryptoAdvisor backend's aggregation/fallback core
(provider adapters, fallback generators, preference resolution, dashboard
aggregation, feedback validation), translated from the JavaScript source.

Modelling conventions, used throughout:
  * a thrown JavaScript exception is `Except.error (e : JsError)`; a JS
    `try { body } catch (e) { handler }` is a match on the body's `Except`;
  * an external HTTP call (axios) is a function parameter returning
    `Except JsError response`, so one definition covers every provider
    behaviour (success, malformed payload, transport error, timeout);
  * `Date.now()` / `toISOString()` timestamps are milliseconds since the
    epoch, as an `Int` parameter `now` (one request-scoped clock reading);
  * `Math.random()`-derived choices are drawn from oracle parameters
    (`rng : Nat → Nat` indexed by how many draws happened, or a single
    `rand : Nat`), reduced mod the range the JS expression produces;
  * JS numbers carried through untouched are `Rat`; possibly-`undefined`
    values are `Option`; `x || dflt` on strings respects JS falsiness
    (`undefined`, `null` and `""` all fall through to the default);
  * `String.prototype.toUpperCase` is modelled on its ASCII behaviour
    (`Char.toUpper` per character), which agrees with JS on every ticker
    symbol the mapping tables can match.
-/

/-- A JavaScript runtime exception (TypeError, axios error, explicit throw),
identified by its message. -/
structure JsError where
  message : String
deriving DecidableEq

/-- JS `x || dflt` for a possibly-undefined string `x`: `undefined`, `null`
and the empty string are falsy and fall through to the default. -/
def jsOrString (v : Option String) (dflt : String) : String :=
  match v with
  | none => dflt
  | some s => if s = "" then dflt else s

/-- JS truthiness test `!x` for a possibly-undefined string. -/
def jsFalsyStr (v : Option String) : Bool :=
  match v with
  | none => true
  | some s => s = ""

/-- JS `x || null` for an optional string field (empty string becomes null). -/
def jsOrNull (v : Option String) : Option String :=
  match v with
  | none => none
  | some s => if s = "" then none else some s

/-- String interpolation of a possibly-undefined value: JS renders
`undefined` as the literal text "undefined" inside a template string. -/
def jsStr (v : Option String) : String := v.getD "undefined"

/-- ASCII model of `String.prototype.toUpperCase` (per-character upcasing). -/
def jsToUpperCase (s : String) : String := String.mk (s.data.map Char.toUpper)

/- ----------------------------------------------------------------------
src/services/coingecko.service.js — the price adapter `getCoinPrices`.
---------------------------------------------------------------------- -/

/-- Symbol-to-CoinGecko-id table (`coinIdMap` in coingecko.service.js). -/
def coinIdMap : List (String × String) :=
  [("BTC", "bitcoin"), ("ETH", "ethereum"), ("SOL", "solana"),
   ("ADA", "cardano"), ("DOT", "polkadot"), ("MATIC", "matic-network"),
   ("AVAX", "avalanche-2"), ("BNB", "binancecoin"), ("XRP", "ripple")]

/-- Per-symbol mapping step of `coinIds.map((symbol) => coinIdMap[symbol.toUpperCase()])`. -/
def cgSymbolMapping (coinIds : List String) : List (Option String) :=
  coinIds.map (fun symbol => coinIdMap.lookup (jsToUpperCase symbol))

/-- The mapped ids once `.filter(Boolean)` drops the unmapped symbols. -/
def cgMappedIds (coinIds : List String) : List String :=
  (cgSymbolMapping coinIds).filterMap id

/-- The `ids` request parameter: mapped ids joined with commas. -/
def cgIdsParam (coinIds : List String) : String :=
  String.intercalate "," (cgMappedIds coinIds)

/-- One entry of the CoinGecko `/simple/price` response for one coin id. -/
structure PriceEntry where
  usd : Option Rat
  usd24hChange : Option Rat
  usd7dChange : Option Rat
deriving DecidableEq

/-- One transformed coin of the adapter's success payload. -/
structure CoinInfo where
  id : String
  symbol : String
  price : Option Rat
  change24h : Rat
  change7d : Rat
deriving DecidableEq

/-- The price adapter's result shape (`error` key absent on success). -/
structure PricesResult where
  coins : List CoinInfo
  error : Option String
deriving DecidableEq

/-- JS `x || 0` for an optional numeric field (undefined and 0 both give 0). -/
def jsOrZero (v : Option Rat) : Rat := v.getD 0

/-- The price adapter `getCoinPrices`. `provider` stands for the axios GET of
`/simple/price` keyed by the `ids` parameter; its response data is the JS
object as an association list id ↦ price entry. The whole body runs in a
`try` whose `catch` returns `{ coins: [], error: "Failed to fetch coin prices" }`. -/
def getCoinPrices (provider : String → Except JsError (List (String × PriceEntry)))
    (coinIds : List String) : Except JsError PricesResult :=
  let body : Except JsError PricesResult :=
    let ids := cgIdsParam coinIds
    if ids = "" then .ok { coins := [], error := none }
    else
      match provider ids with
      | .error e => .error e
      | .ok data =>
        let coins := data.map (fun p =>
          let symbol := (coinIdMap.find? (fun kv => kv.2 == p.1)).map (fun kv => kv.1)
          { id := p.1
            symbol := symbol.getD p.1
            price := p.2.usd
            change24h := jsOrZero p.2.usd24hChange
            change7d := jsOrZero p.2.usd7dChange : CoinInfo })
        .ok { coins := coins, error := none }
  match body with
  | .ok v => .ok v
  | .error _ => .ok { coins := [], error := some "Failed to fetch coin prices" }

/- ----------------------------------------------------------------------
src/services/cryptopanic.service.js — the news adapter `getCryptoNews`
and its fallback generator `generateFallbackNews`.
---------------------------------------------------------------------- -/

/-- Symbol table of the news adapter (`currencyMap` in cryptopanic.service.js). -/
def currencyMap : List (String × String) :=
  [("BTC", "BTC"), ("ETH", "ETH"), ("SOL", "SOL"), ("ADA", "ADA"),
   ("DOT", "DOT"), ("MATIC", "MATIC"), ("AVAX", "AVAX"), ("BNB", "BNB"),
   ("XRP", "XRP")]

/-- Per-symbol mapping step of the news adapter. -/
def cpSymbolMapping (currencies : List String) : List (Option String) :=
  currencies.map (fun symbol => currencyMap.lookup (jsToUpperCase symbol))

/-- The mapped currency codes once `.filter(Boolean)` drops unmapped symbols. -/
def cpMappedCodes (currencies : List String) : List String :=
  (cpSymbolMapping currencies).filterMap id

/-- The `currencyCodes` string: mapped codes joined with commas. -/
def cpCurrencyCodes (currencies : List String) : String :=
  String.intercalate "," (cpMappedCodes currencies)

/-- Query parameters of the CryptoPanic `/posts/` request. -/
structure CpParams where
  authToken : String
  currencies : String
  public : Bool
  filter : String
deriving DecidableEq

/-- Request construction of cryptopanic.service.js lines 52-57: note
`currencies: currencyCodes || 'BTC,ETH'` substitutes the default pair when
no input symbol mapped. -/
def cpBuildParams (apiKey : String) (currencies : List String) : CpParams :=
  { authToken := apiKey
    currencies := if cpCurrencyCodes currencies = "" then "BTC,ETH"
                  else cpCurrencyCodes currencies
    public := true
    filter := "hot" }

/-- One raw article of the CryptoPanic response (`source?.title` and
`votes?.positive` may be missing, `published_at` modelled in epoch ms). -/
structure CpArticle where
  id : String
  title : String
  url : String
  source : Option String
  publishedAt : Int
  votes : Option Nat
  currencies : Option (List String)
deriving DecidableEq

/-- The `response.data` object (`results` may be missing). -/
structure CpData where
  results : Option (List CpArticle)
deriving DecidableEq

/-- The axios response (`data` may be null). -/
structure CpResponse where
  data : Option CpData
deriving DecidableEq

/-- One article of the adapter's normalized output. -/
structure NewsItem where
  id : String
  title : String
  url : String
  source : String
  publishedAt : Int
  votes : Nat
  currencies : List String
deriving DecidableEq

/-- The news adapter's result shape. -/
structure NewsResult where
  news : List NewsItem
  count : Nat
  error : Option String
deriving DecidableEq

/-- The per-article transformation of the live path (lines 74-82). -/
def cpTransform (a : CpArticle) : NewsItem :=
  { id := a.id
    title := a.title
    url := a.url
    source := jsOrString a.source "CryptoPanic"
    publishedAt := a.publishedAt
    votes := a.votes.getD 0
    currencies := a.currencies.getD [] }

/-- One news template of the fallback catalog (title and source only; url is
the constant `https://cryptopanic.com`). -/
structure NewsTemplate where
  title : String
  source : String
deriving DecidableEq

/-- The `newsTemplates` catalog of `generateFallbackNews`, keyed by currency. -/
def newsTemplates : List (String × List NewsTemplate) :=
  [("BTC",
    [⟨"Bitcoin Price Analysis: Market Shows Strong Support Levels", "CryptoNews"⟩,
     ⟨"Institutional Investors Continue Bitcoin Accumulation", "CoinDesk"⟩,
     ⟨"Bitcoin Hash Rate Reaches All-Time High", "Blockchain.com"⟩,
     ⟨"Major Corporations Add Bitcoin to Treasury Reserves", "Forbes Crypto"⟩]),
   ("ETH",
    [⟨"Ethereum Network Activity Reaches New Highs", "Ethereum Foundation"⟩,
     ⟨"DeFi Protocols on Ethereum See Increased TVL", "DeFi Pulse"⟩,
     ⟨"Ethereum Layer 2 Solutions Gain Traction", "Ethereum News"⟩,
     ⟨"NFT Market Shows Recovery Signs on Ethereum", "NFT Gators"⟩]),
   ("SOL",
    [⟨"Solana Ecosystem Expands with New DeFi Projects", "Solana News"⟩,
     ⟨"Solana Network Performance Improvements Announced", "Solana Foundation"⟩,
     ⟨"Major DEX Launches on Solana Blockchain", "DeFi News"⟩]),
   ("ADA",
    [⟨"Cardano Development Updates: Smart Contract Improvements", "Cardano Community"⟩,
     ⟨"Cardano Staking Rewards Reach New Milestone", "Cardano News"⟩]),
   ("DOT",
    [⟨"Polkadot Parachain Auctions See High Participation", "Polkadot Network"⟩,
     ⟨"Cross-Chain Bridges Expand on Polkadot", "Crypto Briefing"⟩]),
   ("MATIC",
    [⟨"Polygon Network Sees Record Transaction Volume", "Polygon News"⟩,
     ⟨"Major Gaming Projects Migrate to Polygon", "GameFi News"⟩]),
   ("AVAX",
    [⟨"Avalanche Subnets Enable Custom Blockchain Solutions", "Avalanche News"⟩,
     ⟨"Avalanche DeFi Ecosystem Continues Growth", "DeFi Times"⟩]),
   ("BNB",
    [⟨"BNB Chain Sees Increased Developer Activity", "BNB Chain News"⟩,
     ⟨"Binance Smart Chain Updates Improve Performance", "Binance Blog"⟩]),
   ("XRP",
    [⟨"Ripple Legal Developments Impact XRP Market", "Crypto Legal"⟩,
     ⟨"XRP Payment Solutions Expand Globally", "Ripple News"⟩])]

/-- The `generalNews` templates used for symbols without a specific entry and
to top up the article list. -/
def generalNews : List NewsTemplate :=
  [⟨"Cryptocurrency Market Shows Bullish Momentum", "Market Watch"⟩,
   ⟨"Regulatory Clarity Improves for Crypto Industry", "Crypto Regulation"⟩,
   ⟨"Institutional Adoption of Crypto Accelerates", "Institutional Crypto"⟩,
   ⟨"DeFi Total Value Locked Reaches New Heights", "DeFi Analytics"⟩,
   ⟨"Crypto Exchanges Report Record Trading Volumes", "Exchange News"⟩]

/-- Template list for one currency:
`newsTemplates[currency.toUpperCase()] || generalNews`. -/
def fbTemplatesFor (currency : String) : List NewsTemplate :=
  (newsTemplates.lookup (jsToUpperCase currency)).getD generalNews

/-- One hour in milliseconds (the stagger step `3600000`). -/
def hourMs : Int := 3600000

/-- Mutable state of `generateFallbackNews`: the `articles` array and the
`usedTitles` set (as the list of inserted keys). -/
structure FbState where
  articles : List NewsItem
  usedTitles : List String

/-- The article pushed for template `t` of `currency` at inner index `i`
(`currencyIndex` is the forEach index, `pushCount` the number of articles
already pushed, indexing the votes oracle). -/
def fbMkCurrencyArticle (now : Int) (rng : Nat → Nat) (currency : String)
    (cIdx i pushCount : Nat) (t : NewsTemplate) : NewsItem :=
  { id := "fallback-" ++ currency ++ "-" ++ toString now ++ "-" ++ toString i
    title := t.title
    url := "https://cryptopanic.com"
    source := t.source
    publishedAt := now - (cIdx * 2 + i) * hourMs
    votes := rng pushCount % 50 + 5
    currencies := [currency] }

/-- Body of the inner `for` loop over template indices `i` (cap at 10
articles, dedup on `title + " (" + currency + ")"`). -/
def fbInnerStep (now : Int) (rng : Nat → Nat) (currency : String) (cIdx : Nat)
    (templates : List NewsTemplate) (st : FbState) (i : Nat) : FbState :=
  if st.articles.length < 10 then
    let t := (templates.get? (i % templates.length)).getD ⟨"", ""⟩
    let uniqueTitle := t.title ++ " (" ++ currency ++ ")"
    if uniqueTitle ∈ st.usedTitles then st
    else
      { articles := st.articles ++
          [fbMkCurrencyArticle now rng currency cIdx i st.articles.length t]
        usedTitles := st.usedTitles ++ [uniqueTitle] }
  else st

/-- Processing of one currency of the outer `forEach` (take up to
`min 3 templates.length` template articles). The JS loop also exits once the
cap of 10 is reached; since pushes only grow the array, the in-step length
guard yields the same final state. -/
def fbCurrencyStep (now : Int) (rng : Nat → Nat) (cIdx : Nat) (currency : String)
    (st : FbState) : FbState :=
  let templates := fbTemplatesFor currency
  let articlesPerCurrency := min 3 templates.length
  (List.range articlesPerCurrency).foldl (fbInnerStep now rng currency cIdx templates) st

/-- The outer `currencies.forEach((currency, currencyIndex) => ...)`,
as index-carrying recursion. -/
def fbCurrencyPhase (now : Int) (rng : Nat → Nat) :
    Nat → List String → FbState → FbState
  | _, [], st => st
  | cIdx, c :: rest, st =>
    fbCurrencyPhase now rng (cIdx + 1) rest (fbCurrencyStep now rng cIdx c st)

/-- Body of the top-up `generalNews.forEach` (early return at 10 articles,
dedup on the plain title). -/
def fbGeneralStep (now : Int) (rng : Nat → Nat) (currencies : List String)
    (idx : Nat) (t : NewsTemplate) (st : FbState) : FbState :=
  if st.articles.length ≥ 10 then st
  else if t.title ∈ st.usedTitles then st
  else
    { articles := st.articles ++
        [{ id := "fallback-general-" ++ toString now ++ "-" ++ toString idx
           title := t.title
           url := "https://cryptopanic.com"
           source := t.source
           publishedAt := now - (st.articles.length + 1) * hourMs
           votes := rng st.articles.length % 50 + 5
           currencies := if currencies.length > 0 then currencies
                         else ["BTC", "ETH"] }]
      usedTitles := st.usedTitles ++ [t.title] }

/-- The top-up `forEach` over `generalNews`, as index-carrying recursion. -/
def fbGeneralPhase (now : Int) (rng : Nat → Nat) (currencies : List String) :
    Nat → List NewsTemplate → FbState → FbState
  | _, [], st => st
  | idx, t :: rest, st =>
    fbGeneralPhase now rng currencies (idx + 1) rest
      (fbGeneralStep now rng currencies idx t st)

/-- Comparator of the final sort: newest first (non-increasing `publishedAt`;
the JS comparator subtracts the parsed dates). -/
def newsAfter (a b : NewsItem) : Prop := b.publishedAt ≤ a.publishedAt

instance : DecidableRel newsAfter :=
  fun a b => inferInstanceAs (Decidable (b.publishedAt ≤ a.publishedAt))

instance : IsTotal NewsItem newsAfter :=
  ⟨fun a b => le_total b.publishedAt a.publishedAt⟩

instance : IsTrans NewsItem newsAfter :=
  ⟨fun _ _ _ h1 h2 => le_trans h2 h1⟩

/-- The fallback news generator `generateFallbackNews` (lines 113-304):
currency phase, general top-up when below 10 articles, then sort newest
first and cap at 10. The Lean sort is a stable sort under the same
comparator, as `Array.prototype.sort` is. -/
def generateFallbackNews (now : Int) (rng : Nat → Nat)
    (currencies : List String) : List NewsItem :=
  let st1 := fbCurrencyPhase now rng 0 currencies ⟨[], []⟩
  let st2 := if st1.articles.length < 10 then
      fbGeneralPhase now rng currencies 0 generalNews st1
    else st1
  (List.insertionSort newsAfter st2.articles).take 10

/-- The news adapter `getCryptoNews` (lines 17-107). `apiKeyEnv` is
`process.env.CRYPTOPANIC_API_KEY`, `provider` the axios GET of `/posts/`.
A missing key short-circuits to the fallback; a provider failure or a
malformed response (missing `data`/`results`) throws inside the `try` and the
`catch` answers with the fallback news. -/
def getCryptoNews (apiKeyEnv : Option String)
    (provider : CpParams → Except JsError CpResponse)
    (now : Int) (rng : Nat → Nat)
    (currencies : List String) (_contentTypes : List String) :
    Except JsError NewsResult :=
  let body : Except JsError NewsResult :=
    if jsFalsyStr apiKeyEnv then
      let fallbackNews := generateFallbackNews now rng currencies
      .ok { news := fallbackNews
            count := fallbackNews.length
            error := some "Using fallback news data - CryptoPanic API key not configured" }
    else
      match provider (cpBuildParams (apiKeyEnv.getD "") currencies) with
      | .error e => .error e
      | .ok response =>
        match response.data with
        | none => .error ⟨"Invalid API response format"⟩
        | some d =>
          match d.results with
          | none => .error ⟨"Invalid API response format"⟩
          | some results =>
            let news := (results.take 10).map cpTransform
            .ok { news := news, count := news.length, error := none }
  match body with
  | .ok v => .ok v
  | .error _ =>
    let fallbackNews := generateFallbackNews now rng currencies
    .ok { news := fallbackNews
          count := fallbackNews.length
          error := some "Using fallback news data - CryptoPanic API unavailable" }

/- ----------------------------------------------------------------------
src/services/ai.service.js — the insight generator `generateInsight`.
---------------------------------------------------------------------- -/

/-- The `userPreferences` argument of `generateInsight`; each field may be
missing (JS `undefined`). A missing whole object is `Option JsPrefs = none`
at the call site. -/
structure JsPrefs where
  interestedAssets : Option (List String)
  investorType : Option String
  contentTypes : Option (List String)
deriving DecidableEq

/-- The `message` object of one OpenRouter choice. -/
structure AiMessage where
  content : Option String
deriving DecidableEq

/-- One element of `response.data.choices`. -/
structure AiChoice where
  message : Option AiMessage
deriving DecidableEq

/-- The OpenRouter response data (`choices` may be missing, and
`response.data.choices[0]` then throws). -/
structure AiResponseData where
  choices : Option (List AiChoice)
  model : Option String
deriving DecidableEq

/-- The insight generator's result shape (`error` present on fallback only). -/
structure InsightResult where
  insight : String
  generatedAt : Int
  model : String
  error : Option String
deriving DecidableEq

/-- The insight generator `generateInsight` (ai.service.js lines 19-83).
`api` stands for the axios POST of `/chat/completions` keyed by the prompt.
The `try` destructures the preferences and builds the prompt (each `.join`
on a missing array throws); the `catch` builds the three fallback template
strings eagerly, so it rethrows when `userPreferences`,
`userPreferences.interestedAssets` or `userPreferences.contentTypes` is
missing — there is no default substitution in this function. -/
def generateInsight (api : String → Except JsError AiResponseData)
    (now : Int) (rand : Nat) (userPreferences : Option JsPrefs) :
    Except JsError InsightResult :=
  let body : Except JsError InsightResult :=
    match userPreferences with
    | none => .error ⟨"TypeError: cannot destructure userPreferences of undefined"⟩
    | some p =>
      match p.interestedAssets with
      | none => .error ⟨"TypeError: cannot read join of undefined interestedAssets"⟩
      | some assets =>
        match p.contentTypes with
        | none => .error ⟨"TypeError: cannot read join of undefined contentTypes"⟩
        | some cts =>
          let prompt := "Generate a brief (2-3 sentences) daily crypto insight for a "
            ++ jsStr p.investorType ++ " investor interested in "
            ++ String.intercalate ", " assets ++ ". \n    Focus on: "
            ++ String.intercalate ", " cts
            ++ ". \n    Keep it informative, concise, and relevant to today\'s market."
          match api prompt with
          | .error e => .error e
          | .ok data =>
            match data.choices with
            | none => .error ⟨"TypeError: cannot read index 0 of undefined choices"⟩
            | some choices =>
              let content := ((choices.get? 0).bind (fun c => c.message)).bind
                (fun m => m.content)
              .ok { insight := jsOrString content "Market analysis is currently unavailable."
                    generatedAt := now
                    model := jsOrString data.model "llama-3.2"
                    error := none }
  match body with
  | .ok v => .ok v
  | .error _ =>
    match userPreferences with
    | none => .error ⟨"TypeError: cannot read investorType of undefined"⟩
    | some p =>
      match p.interestedAssets with
      | none => .error ⟨"TypeError: cannot read join of undefined interestedAssets"⟩
      | some assets =>
        match p.contentTypes with
        | none => .error ⟨"TypeError: cannot read join of undefined contentTypes"⟩
        | some cts =>
          let fallbackInsights :=
            ["As a " ++ jsStr p.investorType ++ ", keep an eye on "
               ++ String.intercalate " and " assets
               ++ ". Market conditions are dynamic, so stay informed and make decisions based on your risk tolerance.",
             "Today\'s crypto market shows interesting movements in "
               ++ String.intercalate ", " assets ++ ". " ++ jsStr p.investorType
               ++ "s should monitor these assets closely.",
             "For " ++ jsStr p.investorType ++ "s interested in "
               ++ String.intercalate " and " assets ++ ", staying updated with "
               ++ String.intercalate " and " cts
               ++ " content is key to making informed decisions."]
          .ok { insight := (fallbackInsights.get? (rand % 3)).getD ""
                generatedAt := now
                model := "fallback"
                error := some "Using fallback insight" }

/- ----------------------------------------------------------------------
src/services/meme.service.js — the meme source `getRandomMeme`.
---------------------------------------------------------------------- -/

/-- One entry of the static meme catalog. -/
structure Meme where
  id : String
  url : String
  title : String
  description : String
  source : String
  tags : List String
deriving DecidableEq

/-- The static catalog `CRYPTO_MEMES` of meme.service.js. -/
def CRYPTO_MEMES : List Meme :=
  [{ id := "meme-1"
     url := "https://images.unsplash.com/photo-1639762681485-074b7f938ba0?w=600&h=400&fit=crop"
     title := "HODL Strong", description := "Diamond hands never fold"
     source := "CryptoAdvisor", tags := ["HODL", "BTC"] },
   { id := "meme-2"
     url := "https://images.unsplash.com/photo-1518546305927-5a555bb7020d?w=600&h=400&fit=crop"
     title := "To The Moon", description := "When your portfolio goes up"
     source := "CryptoAdvisor", tags := ["moon", "bullish"] },
   { id := "meme-3"
     url := "https://images.unsplash.com/photo-1611974789855-9c2a0a7236a3?w=600&h=400&fit=crop"
     title := "When Bitcoin Dips", description := "Stay calm and HODL"
     source := "CryptoAdvisor", tags := ["dip", "BTC", "HODL"] },
   { id := "meme-4"
     url := "https://images.unsplash.com/photo-1620321023374-d1a68fbc720e?w=600&h=400&fit=crop"
     title := "Diamond Hands", description := "Never selling"
     source := "CryptoAdvisor", tags := ["diamond-hands", "HODL"] },
   { id := "meme-5"
     url := "https://images.unsplash.com/photo-1639322537228-f710d846310a?w=600&h=400&fit=crop"
     title := "Crypto Life", description := "Living the crypto dream"
     source := "CryptoAdvisor", tags := ["lifestyle", "crypto"] },
   { id := "meme-6"
     url := "https://images.unsplash.com/photo-1621416893542-0e9d0ad80c49?w=600&h=400&fit=crop"
     title := "Buy The Dip", description := "Best time to accumulate"
     source := "CryptoAdvisor", tags := ["buy", "dip", "accumulate"] },
   { id := "meme-7"
     url := "https://images.unsplash.com/photo-1639762681485-074b7f938ba0?w=600&h=400&fit=crop&auto=format"
     title := "When You See Green", description := "Portfolio in the green"
     source := "CryptoAdvisor", tags := ["green", "profit", "bullish"] },
   { id := "meme-8"
     url := "https://images.unsplash.com/photo-1518546305927-5a555bb7020d?w=600&h=400&fit=crop&auto=format"
     title := "ETH To The Moon", description := "Ethereum going up"
     source := "CryptoAdvisor", tags := ["ETH", "moon", "ethereum"] }]

/-- The meme section's output shape. -/
structure MemeResult where
  url : String
  title : String
  description : String
  source : String
  fetchedAt : Int
deriving DecidableEq

/-- The meme source `getRandomMeme` (lines 99-127): filter the catalog by the
upcased asset tags, fall back to the whole catalog when nothing matches, then
pick one at random (`rand` reduced mod the pool size models
`Math.floor(Math.random() * length)`). -/
def getRandomMeme (now : Int) (rand : Nat)
    (userInterestedAssets : List String) : MemeResult :=
  let availableMemes :=
    if userInterestedAssets.length > 0 then
      let assetTags := userInterestedAssets.map jsToUpperCase
      let matchingMemes := CRYPTO_MEMES.filter
        (fun meme => meme.tags.any (fun tag => assetTags.contains tag))
      if matchingMemes.length > 0 then matchingMemes else CRYPTO_MEMES
    else CRYPTO_MEMES
  let randomIndex := rand % availableMemes.length
  let selectedMeme := (availableMemes.get? randomIndex).getD
    ⟨"", "", "", "", "", []⟩
  { url := selectedMeme.url
    title := selectedMeme.title
    description := selectedMeme.description
    source := selectedMeme.source
    fetchedAt := now }

/- ----------------------------------------------------------------------
src/services/user.store.js (MongoDB variant) — preferences store.
---------------------------------------------------------------------- -/

/-- The `preferences` subdocument of the User schema (src/models/User.js):
`investorType` defaults to null, `completedOnboarding` to false,
`updatedAt` to null. -/
structure StoredPrefs where
  interestedAssets : List String
  investorType : Option String
  contentTypes : List String
  completedOnboarding : Bool
  updatedAt : Option Int
deriving DecidableEq

/-- One stored user document (the fields the dashboard route reads). The
`preferences` subdocument is optional to model the defensive
`!user.preferences` check of `getPreferences`. -/
structure UserDoc where
  _id : String
  email : String
  firstName : String
  lastName : String
  score : Int
  account : String
  preferences : Option StoredPrefs
deriving DecidableEq

/-- The persistent user collection, keyed by user id. -/
def UserStore := String → Option UserDoc

/-- The store's `findById`. -/
def findById (store : UserStore) (id : String) : Option UserDoc := store id

/-- The store's `getPreferences` (user.store.js lines 158-173): null when the
user is missing, when the subdocument is missing, or when
`completedOnboarding` is false — incomplete preferences read as absent. -/
def getPreferences (store : UserStore) (userId : String) : Option StoredPrefs :=
  match store userId with
  | none => none
  | some user =>
    match user.preferences with
    | none => none
    | some prefs =>
      if prefs.completedOnboarding = false then none else some prefs

/-- The body of a preference save (validated by the route before the store
runs). -/
structure PreferencesInput where
  interestedAssets : List String
  investorType : String
  contentTypes : List String
deriving DecidableEq

/-- The store's `updatePreferences` (lines 131-151): `$set` of the three
submitted fields plus `completedOnboarding: true` and a fresh `updatedAt`;
a missing user leaves the store unchanged (findByIdAndUpdate returns null). -/
def updatePreferences (now : Int) (store : UserStore) (userId : String)
    (preferences : PreferencesInput) : UserStore :=
  match store userId with
  | none => store
  | some user =>
    let newPrefs : StoredPrefs :=
      { interestedAssets := preferences.interestedAssets
        investorType := some preferences.investorType
        contentTypes := preferences.contentTypes
        completedOnboarding := true
        updatedAt := some now }
    fun id =>
      if id = userId then some { user with preferences := some newPrefs }
      else store id

/- ----------------------------------------------------------------------
src/routes/dashboard.routes.js (aggregating variant) — the dashboard
endpoint and its preference resolution (lines 21-48).
---------------------------------------------------------------------- -/

/-- Resolution `preferences?.interestedAssets || ['BTC', 'ETH']` (an array is
truthy in JS even when empty, so stored arrays pass through unchanged). -/
def dashInterestedAssets (preferences : Option StoredPrefs) : List String :=
  match preferences with
  | none => ["BTC", "ETH"]
  | some p => p.interestedAssets

/-- Resolution `preferences?.contentTypes || ['Market News']`. -/
def dashContentTypes (preferences : Option StoredPrefs) : List String :=
  match preferences with
  | none => ["Market News"]
  | some p => p.contentTypes

/-- Resolution `preferences?.investorType || 'HODLer'` (null, undefined and
the empty string all fall to the default). -/
def dashInvestorType (preferences : Option StoredPrefs) : String :=
  jsOrString (preferences.bind (fun p => p.investorType)) "HODLer"

/-- The `user` summary of the dashboard response. -/
structure UserSummary where
  id : String
  email : String
  firstName : String
  lastName : String
  score : Int
  account : String
deriving DecidableEq

/-- The `coinPrices` section of the response (the adapter's `error` field is
not copied into the response). -/
structure CoinPricesSection where
  coins : List CoinInfo
  updatedAt : Int
deriving DecidableEq

/-- The `marketNews` section of the response. -/
structure MarketNewsSection where
  news : List NewsItem
  count : Nat
  updatedAt : Int
deriving DecidableEq

/-- The `aiInsight` section of the response. -/
structure AiInsightSection where
  insight : String
  generatedAt : Int
  model : String
deriving DecidableEq

/-- The `meme` placeholder section (`{ url: '', title: '' }` in this route). -/
structure MemeSection where
  url : String
  title : String
deriving DecidableEq

/-- The full dashboard response body: all four content sections plus the user
summary, by construction of the record type. -/
structure DashboardData where
  user : UserSummary
  coinPrices : CoinPricesSection
  marketNews : MarketNewsSection
  aiInsight : AiInsightSection
  meme : MemeSection
deriving DecidableEq

/-- Outcome of one authenticated dashboard request: 404 when the user id
resolves to nobody, 200 with the full body, or `next(error)` when something
escapes the route's try block. -/
inductive DashboardOutcome where
  | notFound
  | ok (data : DashboardData)
  | serverError (e : JsError)
deriving DecidableEq

/-- The dashboard route handler (dashboard.routes.js lines 10-89): resolve
the user and preferences, call the three adapters in order, then assemble
the envelope. The route itself applies the preference defaults before each
adapter call, so `generateInsight` always receives all three fields. -/
def dashboardHandler (store : UserStore) (userId : String)
    (priceProvider : String → Except JsError (List (String × PriceEntry)))
    (apiKeyEnv : Option String)
    (newsProvider : CpParams → Except JsError CpResponse)
    (aiApi : String → Except JsError AiResponseData)
    (now : Int) (rng : Nat → Nat) (rand : Nat) : DashboardOutcome :=
  match findById store userId with
  | none => .notFound
  | some user =>
    let preferences := getPreferences store userId
    let interestedAssets := dashInterestedAssets preferences
    match getCoinPrices priceProvider interestedAssets with
    | .error e => .serverError e
    | .ok coinPricesData =>
      let contentTypes := dashContentTypes preferences
      match getCryptoNews apiKeyEnv newsProvider now rng interestedAssets contentTypes with
      | .error e => .serverError e
      | .ok newsData =>
        match generateInsight aiApi now rand
            (some { interestedAssets := some interestedAssets
                    investorType := some (dashInvestorType preferences)
                    contentTypes := some contentTypes }) with
        | .error e => .serverError e
        | .ok aiInsightData =>
          .ok { user := { id := user._id, email := user.email
                          firstName := user.firstName, lastName := user.lastName
                          score := user.score, account := user.account }
                coinPrices := { coins := coinPricesData.coins, updatedAt := now }
                marketNews := { news := newsData.news, count := newsData.count
                                updatedAt := now }
                aiInsight := { insight := aiInsightData.insight
                               generatedAt := aiInsightData.generatedAt
                               model := aiInsightData.model }
                meme := { url := "", title := "" } }

/- ----------------------------------------------------------------------
src/unnamed/part_006 — the feedback route's POST validation.
---------------------------------------------------------------------- -/

/-- The valid feedback types. -/
def validFeedbackTypes : List String := ["thumbs_up", "thumbs_down"]

/-- The four valid section names. -/
def validSections : List String := ["coinPrices", "marketNews", "aiInsight", "meme"]

/-- The POST /api/feedback request body; every field may be missing. The JS
field named `section` is called `sectionName` here. -/
structure FeedbackBody where
  type : Option String
  sectionName : Option String
  contentId : Option String
  comment : Option String
deriving DecidableEq

/-- A saved feedback document (Feedback model fields the route sets). -/
structure FeedbackRecord where
  userId : String
  type : String
  sectionName : String
  contentId : Option String
  comment : Option String
  createdAt : Int
deriving DecidableEq

/-- Outcome of the POST handler: a 400 with a message, or a saved record. -/
inductive FeedbackOutcome where
  | badRequest (message : String)
  | saved (feedback : FeedbackRecord)
deriving DecidableEq

/-- Test `comment && comment.length > 500` (a missing or empty comment is
falsy and passes). -/
def jsCommentTooLong (comment : Option String) : Bool :=
  match comment with
  | some c => (c != "") && decide (c.length > 500)
  | none => false

/-- The POST /api/feedback handler (part_006 lines 18-70): validate `type`,
then `section` against the four names, then the comment length; only a body
passing all three creates a record. -/
def handleFeedbackPost (now : Int) (userId : String)
    (body : FeedbackBody) : FeedbackOutcome :=
  if jsFalsyStr body.type = true ∨ body.type.getD "" ∉ validFeedbackTypes then
    .badRequest "Feedback type must be \"thumbs_up\" or \"thumbs_down\""
  else if jsFalsyStr body.sectionName = true ∨ body.sectionName.getD "" ∉ validSections then
    .badRequest "Section must be one of: coinPrices, marketNews, aiInsight, meme"
  else if jsCommentTooLong body.comment then
    .badRequest "Comment must be 500 characters or less"
  else
    .saved { userId := userId
             type := body.type.getD ""
             sectionName := body.sectionName.getD ""
             contentId := jsOrNull body.contentId
             comment := jsOrNull body.comment
             createdAt := now }

/- ----------------------------------------------------------------------
Catalog views and loop invariants for the fallback news generator.
---------------------------------------------------------------------- -/

/-- The nine symbols with a dedicated template list — the valid asset
symbols of the fallback catalog. -/
def fbValidSymbols : List String :=
  ["BTC", "ETH", "SOL", "ADA", "DOT", "MATIC", "AVAX", "BNB", "XRP"]

/-- The template titles available for one currency. -/
def titlesFor (c : String) : List String :=
  (fbTemplatesFor c).map NewsTemplate.title

/-- The titles of the general top-up templates. -/
def generalTitles : List String := generalNews.map NewsTemplate.title

/-- Every title of the nine per-currency template lists. -/
def allTemplateTitles : List String := (fbValidSymbols.map titlesFor).flatten

/-- Invariant of the currency phase (inputs drawn from `fbValidSymbols`):
article titles are pairwise distinct, and each article's title belongs to
one valid symbol's catalog with its dedup key registered in `usedTitles`. -/
def CurInv (st : FbState) : Prop :=
  (st.articles.map NewsItem.title).Nodup ∧
  ∀ a ∈ st.articles, ∃ c, c ∈ fbValidSymbols ∧ a.title ∈ titlesFor c ∧
    (a.title ++ " (" ++ c ++ ")") ∈ st.usedTitles

/-- Invariant of the general top-up phase: titles stay pairwise distinct and
non-empty; each article's title is either a catalog title (disjoint from the
general titles) or registered in `usedTitles`. -/
def GenInv (st : FbState) : Prop :=
  (st.articles.map NewsItem.title).Nodup ∧
  ∀ a ∈ st.articles, a.title ≠ "" ∧
    ((a.title ∈ allTemplateTitles ∧ a.title ∉ generalTitles) ∨
      a.title ∈ st.usedTitles)

/- ----------------------------------------------------------------------
Concrete fixtures used by witnesses and counterexamples below.
---------------------------------------------------------------------- -/

/-- An AI provider that fails (network error), for concrete evaluation. -/
def demoFailingAiApi : String → Except JsError AiResponseData :=
  fun _ => .error ⟨"network timeout"⟩

/-- An AI provider that succeeds with an empty choice list. -/
def demoOkAiApi : String → Except JsError AiResponseData :=
  fun _ => .ok ⟨some [], some "m"⟩

/-- A news article the probe provider serves only under the substituted
default `currencies=BTC,ETH` query. -/
def probeArticle : CpArticle :=
  { id := "1", title := "Default Pair Article", url := "https://cryptopanic.com"
    source := none, publishedAt := 5, votes := none, currencies := none }

/-- A news provider that answers one article for the query
`currencies=BTC,ETH` and an empty result set for any other query: what
`getCryptoNews` returns against it reveals which query was issued. -/
def probeNewsProvider : CpParams → Except JsError CpResponse := fun p =>
  if p.currencies = "BTC,ETH" then .ok ⟨some ⟨some [probeArticle]⟩⟩
  else .ok ⟨some ⟨some []⟩⟩

/-- A stored user whose preferences were saved but onboarding never
completed: the stored values differ from every default. -/
def demoIncompleteUser : UserDoc :=
  { _id := "u2", email := "x@y.z", firstName := "Lee", lastName := "Ng"
    score := 3, account := "basic"
    preferences := some
      { interestedAssets := ["DOGE", "SOL"], investorType := some "Day Trader"
        contentTypes := ["Memes"], completedOnboarding := false
        updatedAt := some 7 } }

/-- A one-user store holding `demoIncompleteUser`. -/
def demoIncompleteStore : UserStore :=
  fun id => if id = "u2" then some demoIncompleteUser else none

/-- A plain stored user with no preferences yet. -/
def demoUser : UserDoc :=
  { _id := "u1", email := "a@b.c", firstName := "Ada", lastName := "Lin"
    score := 0, account := "basic", preferences := none }

/-- A one-user store holding `demoUser`. -/
def demoStore : UserStore :=
  fun id => if id = "u1" then some demoUser else none

/-- A 501-character comment. -/
def demoLongComment : String := String.mk (List.replicate 501 'a')

/-- A price provider that always fails. -/
def demoFailingPriceProvider : String → Except JsError (List (String × PriceEntry)) :=
  fun _ => .error ⟨"ECONNABORTED"⟩

/-- A news provider that always fails. -/
def demoFailingNewsProvider : CpParams → Except JsError CpResponse :=
  fun _ => .error ⟨"Request failed with status code 429"⟩

/- ----------------------------------------------------------------------
General lemmas.
---------------------------------------------------------------------- -/

/-- ASCII uppercasing is idempotent on characters. -/
theorem char_toUpper_idem (c : Char) : c.toUpper.toUpper = c.toUpper := by
  show Char.toUpper (Char.toUpper c) = Char.toUpper c
  simp only [Char.toUpper]
  by_cases h : c.toNat ≥ 97 ∧ c.toNat ≤ 122
  · rw [if_pos h]
    have hv : (c.toNat - 32).isValidChar := by
      left; omega
    have ht : (Char.ofNat (c.toNat - 32)).toNat = c.toNat - 32 := by
      unfold Char.ofNat
      rw [dif_pos hv]
      rfl
    rw [if_neg]
    rw [ht]
    omega
  · rw [if_neg h, if_neg h]

/-- `toUpperCase` is idempotent on strings. -/
theorem jsToUpperCase_idem (s : String) :
    jsToUpperCase (jsToUpperCase s) = jsToUpperCase s := by
  simp only [jsToUpperCase]
  refine congrArg String.mk ?_
  show (s.data.map Char.toUpper).map Char.toUpper = s.data.map Char.toUpper
  rw [List.map_map]
  exact List.map_congr_left (fun c _ => char_toUpper_idem c)

/-- Fold preservation: a property held at the start and preserved by every
step holds of the fold's result. -/
theorem foldl_hold {σ α : Type _} {P : σ → Prop} {f : σ → α → σ} :
    ∀ (l : List α) (st : σ), P st → (∀ st a, P st → P (f st a)) →
      P (l.foldl f st)
  | [], _, h0, _ => h0
  | _ :: l, st, h0, hstep => foldl_hold l _ (hstep st _ h0) hstep

/- ----------------------------------------------------------------------
Adapter totality lemmas (shared by several claims below).
---------------------------------------------------------------------- -/

/-- The price adapter resolves to a result for every provider behaviour. -/
theorem getCoinPrices_ok (provider : String → Except JsError (List (String × PriceEntry)))
    (coinIds : List String) : ∃ r, getCoinPrices provider coinIds = .ok r := by
  unfold getCoinPrices
  by_cases h : cgIdsParam coinIds = ""
  · simp [h]
  · simp only [h, if_neg, if_false]
    cases hp : provider (cgIdsParam coinIds) with
    | error e => simp [hp]
    | ok data => simp [hp]

/-- The news adapter resolves to a result for every key and provider
behaviour. -/
theorem getCryptoNews_ok (apiKeyEnv : Option String)
    (provider : CpParams → Except JsError CpResponse) (now : Int)
    (rng : Nat → Nat) (currencies contentTypes : List String) :
    ∃ r, getCryptoNews apiKeyEnv provider now rng currencies contentTypes = .ok r := by
  unfold getCryptoNews
  by_cases h : jsFalsyStr apiKeyEnv
  · simp [h]
  · simp only [h, if_false, Bool.false_eq_true]
    cases hp : provider (cpBuildParams (apiKeyEnv.getD "") currencies) with
    | error e => simp [hp]
    | ok response =>
      cases hd : response.data with
      | none => simp [hp, hd]
      | some d =>
        cases hr : d.results with
        | none => simp [hp, hd, hr]
        | some results => simp [hp, hd, hr]

/-- The insight generator resolves to a result whenever the preference object
carries both arrays (the dashboard route always supplies them). -/
theorem generateInsight_complete_ok (api : String → Except JsError AiResponseData)
    (now : Int) (rand : Nat) (investorType : Option String)
    (assets cts : List String) :
    ∃ r, generateInsight api now rand
      (some ⟨some assets, investorType, some cts⟩) = .ok r := by
  unfold generateInsight
  cases hp : api ("Generate a brief (2-3 sentences) daily crypto insight for a "
      ++ jsStr investorType ++ " investor interested in "
      ++ String.intercalate ", " assets ++ ". \n    Focus on: "
      ++ String.intercalate ", " cts
      ++ ". \n    Keep it informative, concise, and relevant to today\'s market.") with
  | error e => simp [hp]
  | ok data =>
    cases hc : data.choices with
    | none => simp [hp, hc]
    | some choices => simp [hp, hc]

/- ----------------------------------------------------------------------
Claim C1 — adapter boundary safety.
---------------------------------------------------------------------- -/

/-- Claim C1, counterexample: `generateInsight` does throw past its boundary
for an empty preference object (no `interestedAssets`) and for a missing
preference object — even when the upstream call would have succeeded — and
substitutes no default: the `catch` block reads
`userPreferences.interestedAssets.join` and rethrows a TypeError. -/
theorem generateInsight_throws_on_empty_prefs :
    (generateInsight demoFailingAiApi 0 0 (some ⟨none, none, none⟩)).isOk = false ∧
    (generateInsight demoOkAiApi 0 0 (some ⟨none, none, none⟩)).isOk = false ∧
    (generateInsight demoFailingAiApi 0 0 none).isOk = false := by
  exact ⟨rfl, rfl, rfl⟩

/-- Claim C1, amended: the price and news adapters return a result and never
throw for any input and any provider behaviour; the insight generator does so
only when the preference object supplies the `interestedAssets` and
`contentTypes` arrays (which the dashboard route always does, applying the
defaults itself before the call) — it does not substitute defaults internally
and throws when they are missing. -/
theorem adapters_never_throw_past_boundary :
    (∀ provider coinIds, (getCoinPrices provider coinIds).isOk = true) ∧
    (∀ apiKeyEnv provider now rng currencies contentTypes,
      (getCryptoNews apiKeyEnv provider now rng currencies contentTypes).isOk = true) ∧
    (∀ api now rand investorType assets cts,
      (generateInsight api now rand
        (some ⟨some assets, investorType, some cts⟩)).isOk = true) := by
  refine ⟨fun provider coinIds => ?_, fun k p n r c ct => ?_, fun a n r it as cts => ?_⟩
  · obtain ⟨r, hr⟩ := getCoinPrices_ok provider coinIds
    rw [hr]; rfl
  · obtain ⟨r, hr⟩ := getCryptoNews_ok k p n r c ct
    rw [hr]; rfl
  · obtain ⟨r, hr⟩ := generateInsight_complete_ok a n r it as cts
    rw [hr]; rfl

/- ----------------------------------------------------------------------
Claim C7 — the meme source.
---------------------------------------------------------------------- -/

/-- Claim C7: for every input — empty asset list or tags matching nothing —
`getRandomMeme` returns exactly one item whose url, title, description and
source come from one catalog entry; the lookup is total, with no failure or
fallback branch. -/
theorem getRandomMeme_from_catalog (now : Int) (rand : Nat)
    (userInterestedAssets : List String) :
    ∃ m, m ∈ CRYPTO_MEMES ∧
      getRandomMeme now rand userInterestedAssets =
        { url := m.url, title := m.title, description := m.description
          source := m.source, fetchedAt := now } := by
  unfold getRandomMeme
  have hmemes : 0 < CRYPTO_MEMES.length := by decide
  by_cases hassets : userInterestedAssets.length > 0
  · simp only [hassets, if_pos]
    set matching := CRYPTO_MEMES.filter
      (fun meme => meme.tags.any
        (fun tag => (userInterestedAssets.map jsToUpperCase).contains tag)) with hmatching
    by_cases hm : matching.length > 0
    · simp only [hm, if_pos]
      have hlt : rand % matching.length < matching.length := Nat.mod_lt _ hm
      have hget : matching.get? (rand % matching.length) =
          some matching[rand % matching.length] := by
        rw [List.get?_eq_getElem?, List.getElem?_eq_getElem hlt]
      refine ⟨matching[rand % matching.length], ?_, ?_⟩
      · exact List.mem_of_mem_filter (List.getElem_mem hlt)
      · rw [hget]; rfl
    · simp only [hm, if_neg, if_false]
      have hlt : rand % CRYPTO_MEMES.length < CRYPTO_MEMES.length := Nat.mod_lt _ hmemes
      have hget : CRYPTO_MEMES.get? (rand % CRYPTO_MEMES.length) =
          some CRYPTO_MEMES[rand % CRYPTO_MEMES.length] := by
        rw [List.get?_eq_getElem?, List.getElem?_eq_getElem hlt]
      refine ⟨CRYPTO_MEMES[rand % CRYPTO_MEMES.length], List.getElem_mem hlt, ?_⟩
      rw [hget]; rfl
  · simp only [hassets, if_neg, if_false]
    have hlt : rand % CRYPTO_MEMES.length < CRYPTO_MEMES.length := Nat.mod_lt _ hmemes
    have hget : CRYPTO_MEMES.get? (rand % CRYPTO_MEMES.length) =
        some CRYPTO_MEMES[rand % CRYPTO_MEMES.length] := by
      rw [List.get?_eq_getElem?, List.getElem?_eq_getElem hlt]
    refine ⟨CRYPTO_MEMES[rand % CRYPTO_MEMES.length], List.getElem_mem hlt, ?_⟩
    rw [hget]; rfl

/- ----------------------------------------------------------------------
Claim C10 — case-insensitive symbol handling.
---------------------------------------------------------------------- -/

/-- Claim C10: replacing any one symbol by its uppercase form leaves the
symbol-to-identifier mapping of both the price and the news adapter
unchanged (hence also which assets are queried or dropped). -/
theorem symbol_mapping_case_insensitive (pre post : List String) (s : String) :
    cgSymbolMapping (pre ++ jsToUpperCase s :: post) =
      cgSymbolMapping (pre ++ s :: post) ∧
    cpSymbolMapping (pre ++ jsToUpperCase s :: post) =
      cpSymbolMapping (pre ++ s :: post) := by
  constructor
  · simp only [cgSymbolMapping, List.map_append, List.map_cons, jsToUpperCase_idem]
  · simp only [cpSymbolMapping, List.map_append, List.map_cons, jsToUpperCase_idem]

/- ----------------------------------------------------------------------
Claim C5 — symbol mapping: dropping and the zero-map cases.
---------------------------------------------------------------------- -/

/-- Claim C5, counterexample: with an API key configured and an input whose
symbols none map (`["FOO"]`), the news adapter does not return an
empty-but-successful result — it queries the provider with the substituted
default currencies `BTC,ETH` and returns that query's live article. -/
theorem news_adapter_queries_substitute_symbols :
    cpMappedCodes ["FOO"] = [] ∧
    (cpBuildParams "key" ["FOO"]).currencies = "BTC,ETH" ∧
    getCryptoNews (some "key") probeNewsProvider 0 (fun _ => 0) ["FOO"] [] =
      .ok { news := [cpTransform probeArticle], count := 1, error := none } ∧
    (cpTransform probeArticle).title = "Default Pair Article" := by
  refine ⟨by decide, by decide, ?_, rfl⟩
  rfl

/-- Claim C5, amended: both adapters silently drop unmapped symbols from the
identifier mapping; when zero symbols map, the price adapter returns the
empty-but-successful `{ coins: [] }` without consulting the provider at all
(the result is the same for every provider), while the news adapter instead
substitutes the default `BTC,ETH` pair into its query. -/
theorem symbol_mapping_drops_unmapped :
    (∀ syms s, coinIdMap.lookup (jsToUpperCase s) = none →
      cgMappedIds (syms ++ [s]) = cgMappedIds syms) ∧
    (∀ syms s, currencyMap.lookup (jsToUpperCase s) = none →
      cpMappedCodes (syms ++ [s]) = cpMappedCodes syms) ∧
    (∀ provider syms, cgMappedIds syms = [] →
      getCoinPrices provider syms = .ok { coins := [], error := none }) ∧
    (∀ apiKey syms, cpMappedCodes syms = [] →
      (cpBuildParams apiKey syms).currencies = "BTC,ETH") := by
  refine ⟨fun syms s h => ?_, fun syms s h => ?_, fun provider syms h => ?_,
    fun apiKey syms h => ?_⟩
  · simp [cgMappedIds, cgSymbolMapping, List.map_append, List.filterMap_append, h]
  · simp [cpMappedCodes, cpSymbolMapping, List.map_append, List.filterMap_append, h]
  · have hids : cgIdsParam syms = "" := by
      simp [cgIdsParam, h, String.intercalate]
    unfold getCoinPrices
    simp [hids]
  · have hcodes : cpCurrencyCodes syms = "" := by
      simp [cpCurrencyCodes, h, String.intercalate]
    simp [cpBuildParams, hcodes]

/- ----------------------------------------------------------------------
Claim C6 — incomplete onboarding reads as defaults.
---------------------------------------------------------------------- -/

/-- Claim C6: for every stored preference record with
`completedOnboarding: false`, the dashboard's preference resolution returns
exactly the documented defaults — never any stored value, whatever the
record holds. -/
theorem incomplete_onboarding_yields_defaults (store : UserStore)
    (userId : String) (user : UserDoc) (prefs : StoredPrefs)
    (hu : store userId = some user) (hp : user.preferences = some prefs)
    (hc : prefs.completedOnboarding = false) :
    dashInterestedAssets (getPreferences store userId) = ["BTC", "ETH"] ∧
    dashContentTypes (getPreferences store userId) = ["Market News"] ∧
    dashInvestorType (getPreferences store userId) = "HODLer" := by
  have hnone : getPreferences store userId = none := by
    unfold getPreferences
    rw [hu]
    dsimp only
    rw [hp]
    dsimp only
    rw [hc]
    simp
  rw [hnone]
  exact ⟨rfl, rfl, rfl⟩

/-- Witness for claim C6 at a concrete incomplete record. -/
theorem incomplete_onboarding_yields_defaults_witness :
    demoIncompleteStore "u2" = some demoIncompleteUser ∧
    (dashInterestedAssets (getPreferences demoIncompleteStore "u2") = ["BTC", "ETH"] ∧
     dashContentTypes (getPreferences demoIncompleteStore "u2") = ["Market News"] ∧
     dashInvestorType (getPreferences demoIncompleteStore "u2") = "HODLer") :=
  ⟨rfl, incomplete_onboarding_yields_defaults demoIncompleteStore "u2"
    demoIncompleteUser
    { interestedAssets := ["DOGE", "SOL"], investorType := some "Day Trader"
      contentTypes := ["Memes"], completedOnboarding := false
      updatedAt := some 7 }
    rfl rfl rfl⟩

/- ----------------------------------------------------------------------
Claim C9 — preference save/read round-trip.
---------------------------------------------------------------------- -/

/-- Claim C9: saving preferences for an existing user and reading them back
yields exactly the three submitted fields plus `completedOnboarding: true`
(every successful save marks onboarding complete) and the save timestamp. -/
theorem preferences_roundtrip (now : Int) (store : UserStore) (userId : String)
    (user : UserDoc) (p : PreferencesInput) (hu : store userId = some user) :
    getPreferences (updatePreferences now store userId p) userId =
      some { interestedAssets := p.interestedAssets
             investorType := some p.investorType
             contentTypes := p.contentTypes
             completedOnboarding := true
             updatedAt := some now } := by
  unfold updatePreferences getPreferences
  rw [hu]
  simp

/-- Witness for claim C9: the round trip at the claim's concrete triple
`{interestedAssets: ['BTC','SOL'], investorType: 'Day Trader',
contentTypes: ['Charts']}`. -/
theorem preferences_roundtrip_witness :
    demoStore "u1" = some demoUser ∧
    getPreferences
        (updatePreferences 1700000000000 demoStore "u1"
          { interestedAssets := ["BTC", "SOL"], investorType := "Day Trader"
            contentTypes := ["Charts"] }) "u1" =
      some { interestedAssets := ["BTC", "SOL"]
             investorType := some "Day Trader"
             contentTypes := ["Charts"]
             completedOnboarding := true
             updatedAt := some 1700000000000 } :=
  ⟨rfl, preferences_roundtrip 1700000000000 demoStore "u1" demoUser
    { interestedAssets := ["BTC", "SOL"], investorType := "Day Trader"
      contentTypes := ["Charts"] } rfl⟩

/- ----------------------------------------------------------------------
Claim C8 — feedback validation.
---------------------------------------------------------------------- -/

/-- Claim C8: with a valid feedback type, a section outside the four valid
names is rejected with the message listing those four names, and a comment
longer than 500 characters is rejected; both rejections return a 400 and so
no feedback record is created. -/
theorem feedback_validation_rejects (now : Int) (uid : String)
    (body : FeedbackBody) (t : String) (hty : body.type = some t)
    (htv : t ∈ validFeedbackTypes) :
    (∀ s, body.sectionName = some s → s ∉ validSections →
      handleFeedbackPost now uid body =
        .badRequest "Section must be one of: coinPrices, marketNews, aiInsight, meme") ∧
    (∀ s c, body.sectionName = some s → s ∈ validSections →
      body.comment = some c → c.length > 500 →
      handleFeedbackPost now uid body =
        .badRequest "Comment must be 500 characters or less") := by
  have htne : t ≠ "" := by
    have htv2 : t = "thumbs_up" ∨ t = "thumbs_down" := by
      simpa [validFeedbackTypes] using htv
    rcases htv2 with h | h
    · subst h; decide
    · subst h; decide
  have htype_ok : ¬(jsFalsyStr body.type = true ∨
      body.type.getD "" ∉ validFeedbackTypes) := by
    rw [hty]
    push_neg
    refine ⟨?_, htv⟩
    simp [jsFalsyStr, htne]
  constructor
  · intro s hs hsbad
    unfold handleFeedbackPost
    rw [if_neg htype_ok, if_pos]
    rw [hs]
    exact Or.inr hsbad
  · intro s c hs hsok hcm hclen
    have hsne : s ≠ "" := by
      intro h
      subst h
      simp [validSections] at hsok
    have hsec_ok : ¬(jsFalsyStr body.sectionName = true ∨
        body.sectionName.getD "" ∉ validSections) := by
      rw [hs]
      push_neg
      refine ⟨?_, hsok⟩
      simp [jsFalsyStr, hsne]
    have hcne : c ≠ "" := by
      intro h
      rw [h] at hclen
      simp [String.length] at hclen
    have hctl : jsCommentTooLong body.comment = true := by
      rw [hcm]
      simp [jsCommentTooLong, hcne, hclen]
    unfold handleFeedbackPost
    rw [if_neg htype_ok, if_neg hsec_ok, if_pos hctl]

/-- Witness for claim C8: a bogus section name and a 501-character comment
are both rejected with the expected messages. -/
theorem feedback_validation_rejects_witness :
    (⟨some "thumbs_up", some "bogusSection", none, none⟩ : FeedbackBody).type
        = some "thumbs_up" ∧
    handleFeedbackPost 0 "user-1" ⟨some "thumbs_up", some "bogusSection", none, none⟩ =
      .badRequest "Section must be one of: coinPrices, marketNews, aiInsight, meme" ∧
    handleFeedbackPost 0 "user-1" ⟨some "thumbs_up", some "meme", none, some demoLongComment⟩ =
      .badRequest "Comment must be 500 characters or less" :=
  ⟨rfl,
   (feedback_validation_rejects 0 "user-1"
      ⟨some "thumbs_up", some "bogusSection", none, none⟩ "thumbs_up" rfl
      (by decide)).1 "bogusSection" rfl (by decide),
   (feedback_validation_rejects 0 "user-1"
      ⟨some "thumbs_up", some "meme", none, some demoLongComment⟩ "thumbs_up" rfl
      (by decide)).2 "meme" demoLongComment rfl (by decide) rfl
      (by show 500 < demoLongComment.length
          have h : demoLongComment.length = 501 := by
            show (List.replicate 501 'a').length = 501
            rw [List.length_replicate]
          omega)⟩

/- ----------------------------------------------------------------------
Claim C2 — the dashboard response is never partial.
---------------------------------------------------------------------- -/

/-- Claim C2: for every authenticated dashboard request whose user exists,
and for every behaviour of the three remote providers, the handler answers
200 with a complete `DashboardData` — a record carrying all four section
keys (`coinPrices`, `marketNews`, `aiInsight`, `meme`) plus the user
summary; no provider failure reaches the error path. -/
theorem dashboard_response_always_complete (store : UserStore) (userId : String)
    (user : UserDoc)
    (priceProvider : String → Except JsError (List (String × PriceEntry)))
    (apiKeyEnv : Option String)
    (newsProvider : CpParams → Except JsError CpResponse)
    (aiApi : String → Except JsError AiResponseData)
    (now : Int) (rng : Nat → Nat) (rand : Nat)
    (hu : store userId = some user) :
    ∃ d, dashboardHandler store userId priceProvider apiKeyEnv newsProvider
      aiApi now rng rand = .ok d := by
  unfold dashboardHandler findById
  rw [hu]
  dsimp only
  obtain ⟨pr, hpr⟩ := getCoinPrices_ok priceProvider
    (dashInterestedAssets (getPreferences store userId))
  rw [hpr]
  obtain ⟨nr, hnr⟩ := getCryptoNews_ok apiKeyEnv newsProvider now rng
    (dashInterestedAssets (getPreferences store userId))
    (dashContentTypes (getPreferences store userId))
  rw [hnr]
  obtain ⟨ar, har⟩ := generateInsight_complete_ok aiApi now rand
    (some (dashInvestorType (getPreferences store userId)))
    (dashInterestedAssets (getPreferences store userId))
    (dashContentTypes (getPreferences store userId))
  rw [har]
  exact ⟨_, rfl⟩

/-- Witness for claim C2: a concrete request against providers that all fail
still yields a 200 with the complete envelope. -/
theorem dashboard_response_always_complete_witness :
    demoStore "u1" = some demoUser ∧
    ∃ d, dashboardHandler demoStore "u1" demoFailingPriceProvider none
      demoFailingNewsProvider demoFailingAiApi 0 (fun _ => 0) 0 = .ok d :=
  ⟨rfl, dashboard_response_always_complete demoStore "u1" demoUser
    demoFailingPriceProvider none demoFailingNewsProvider demoFailingAiApi
    0 (fun _ => 0) 0 rfl⟩

/- ----------------------------------------------------------------------
Claim C3 — total price-provider outage.
---------------------------------------------------------------------- -/

/-- The price adapter against a provider failing on every query: the catch
branch returns the empty payload with the adapter-level error marker,
provided at least one symbol mapped (so the provider really was consulted). -/
theorem getCoinPrices_outage (provider : String → Except JsError (List (String × PriceEntry)))
    (coinIds : List String) (hids : cgIdsParam coinIds ≠ "")
    (hfail : ∀ q, ∃ e, provider q = Except.error e) :
    getCoinPrices provider coinIds =
      .ok { coins := [], error := some "Failed to fetch coin prices" } := by
  unfold getCoinPrices
  obtain ⟨e, he⟩ := hfail (cgIdsParam coinIds)
  simp [hids, he]

/-- Claim C3: when the price provider fails for every query (and the resolved
assets produce a non-empty query), the dashboard still answers 200: the
`coinPrices` payload is empty, the adapter result carries the error marker
(which the route does not copy into the envelope), and the `marketNews`,
`aiInsight` and `meme` sections hold exactly what their own providers or
fallbacks produce — the caller never sees a provider-outage error. -/
theorem dashboard_survives_price_outage (store : UserStore) (userId : String)
    (user : UserDoc)
    (priceProvider : String → Except JsError (List (String × PriceEntry)))
    (apiKeyEnv : Option String)
    (newsProvider : CpParams → Except JsError CpResponse)
    (aiApi : String → Except JsError AiResponseData)
    (now : Int) (rng : Nat → Nat) (rand : Nat)
    (hu : store userId = some user)
    (hfail : ∀ q, ∃ e, priceProvider q = Except.error e)
    (hids : cgIdsParam (dashInterestedAssets (getPreferences store userId)) ≠ "") :
    ∃ d newsRes aiRes,
      dashboardHandler store userId priceProvider apiKeyEnv newsProvider
        aiApi now rng rand = .ok d ∧
      getCoinPrices priceProvider
          (dashInterestedAssets (getPreferences store userId)) =
        .ok { coins := [], error := some "Failed to fetch coin prices" } ∧
      d.coinPrices.coins = [] ∧
      getCryptoNews apiKeyEnv newsProvider now rng
          (dashInterestedAssets (getPreferences store userId))
          (dashContentTypes (getPreferences store userId)) = .ok newsRes ∧
      d.marketNews.news = newsRes.news ∧
      d.marketNews.count = newsRes.count ∧
      generateInsight aiApi now rand
          (some { interestedAssets :=
                    some (dashInterestedAssets (getPreferences store userId))
                  investorType :=
                    some (dashInvestorType (getPreferences store userId))
                  contentTypes :=
                    some (dashContentTypes (getPreferences store userId)) }) =
        .ok aiRes ∧
      d.aiInsight.insight = aiRes.insight ∧
      d.meme = { url := "", title := "" } := by
  have hpr := getCoinPrices_outage priceProvider
    (dashInterestedAssets (getPreferences store userId)) hids hfail
  obtain ⟨nr, hnr⟩ := getCryptoNews_ok apiKeyEnv newsProvider now rng
    (dashInterestedAssets (getPreferences store userId))
    (dashContentTypes (getPreferences store userId))
  obtain ⟨ar, har⟩ := generateInsight_complete_ok aiApi now rand
    (some (dashInvestorType (getPreferences store userId)))
    (dashInterestedAssets (getPreferences store userId))
    (dashContentTypes (getPreferences store userId))
  refine ⟨{ user := { id := user._id, email := user.email
                      firstName := user.firstName, lastName := user.lastName
                      score := user.score, account := user.account }
            coinPrices := { coins := [], updatedAt := now }
            marketNews := { news := nr.news, count := nr.count, updatedAt := now }
            aiInsight := { insight := ar.insight, generatedAt := ar.generatedAt
                           model := ar.model }
            meme := { url := "", title := "" } },
    nr, ar, ?_, hpr, rfl, hnr, rfl, rfl, har, rfl, rfl⟩
  unfold dashboardHandler findById
  rw [hu]
  dsimp only
  rw [hpr, hnr, har]

/-- Witness for claim C3: a user with no saved preferences (so the defaults
`BTC`, `ETH` resolve and map), a price provider that always fails, and the
other providers failing too. -/
theorem dashboard_survives_price_outage_witness :
    demoStore "u1" = some demoUser ∧
    (∀ q, ∃ e, demoFailingPriceProvider q = Except.error e) ∧
    cgIdsParam (dashInterestedAssets (getPreferences demoStore "u1")) ≠ "" ∧
    (∃ d newsRes aiRes,
      dashboardHandler demoStore "u1" demoFailingPriceProvider none
        demoFailingNewsProvider demoFailingAiApi 0 (fun _ => 0) 0 = .ok d ∧
      getCoinPrices demoFailingPriceProvider
          (dashInterestedAssets (getPreferences demoStore "u1")) =
        .ok { coins := [], error := some "Failed to fetch coin prices" } ∧
      d.coinPrices.coins = [] ∧
      getCryptoNews none demoFailingNewsProvider 0 (fun _ => 0)
          (dashInterestedAssets (getPreferences demoStore "u1"))
          (dashContentTypes (getPreferences demoStore "u1")) = .ok newsRes ∧
      d.marketNews.news = newsRes.news ∧
      d.marketNews.count = newsRes.count ∧
      generateInsight demoFailingAiApi 0 0
          (some { interestedAssets :=
                    some (dashInterestedAssets (getPreferences demoStore "u1"))
                  investorType :=
                    some (dashInvestorType (getPreferences demoStore "u1"))
                  contentTypes :=
                    some (dashContentTypes (getPreferences demoStore "u1")) }) =
        .ok aiRes ∧
      d.aiInsight.insight = aiRes.insight ∧
      d.meme = { url := "", title := "" }) :=
  ⟨rfl, fun q => ⟨⟨"ECONNABORTED"⟩, rfl⟩, by decide,
   dashboard_survives_price_outage demoStore "u1" demoUser
     demoFailingPriceProvider none demoFailingNewsProvider demoFailingAiApi
     0 (fun _ => 0) 0 rfl (fun q => ⟨⟨"ECONNABORTED"⟩, rfl⟩) (by decide)⟩

theorem templates_nonempty : ∀ c ∈ fbValidSymbols, 0 < (fbTemplatesFor c).length := by
  decide

theorem titles_disjoint :
    ∀ c1 ∈ fbValidSymbols, ∀ c2 ∈ fbValidSymbols,
      ∀ t ∈ titlesFor c1, t ∈ titlesFor c2 → c1 = c2 := by decide

theorem catalog_not_general : ∀ t ∈ allTemplateTitles, t ∉ generalTitles := by decide

theorem catalog_titles_nonempty : ∀ t ∈ allTemplateTitles, t ≠ "" := by decide

theorem general_titles_nonempty : ∀ t ∈ generalTitles, t ≠ "" := by decide

theorem titlesFor_subset_all {c : String} (hc : c ∈ fbValidSymbols) :
    ∀ t ∈ titlesFor c, t ∈ allTemplateTitles := by
  intro t ht
  exact List.mem_flatten.mpr ⟨titlesFor c, List.mem_map_of_mem _ hc, ht⟩

theorem cur_to_gen {st : FbState} (h : CurInv st) : GenInv st := by
  refine ⟨h.1, fun a ha => ?_⟩
  obtain ⟨c, hcV, hct, _⟩ := h.2 a ha
  have hall : a.title ∈ allTemplateTitles := titlesFor_subset_all hcV _ hct
  exact ⟨catalog_titles_nonempty _ hall, Or.inl ⟨hall, catalog_not_general _ hall⟩⟩

theorem fbInnerStep_preserves (now : Int) (rng : Nat → Nat) (currency : String)
    (hc : currency ∈ fbValidSymbols) (cIdx i : Nat) (st : FbState)
    (hinv : CurInv st) :
    CurInv (fbInnerStep now rng currency cIdx (fbTemplatesFor currency) st i) := by
  unfold fbInnerStep
  by_cases hlen : st.articles.length < 10
  case neg => rw [if_neg hlen]; exact hinv
  rw [if_pos hlen]
  have hpos : 0 < (fbTemplatesFor currency).length := templates_nonempty currency hc
  have hmod : i % (fbTemplatesFor currency).length < (fbTemplatesFor currency).length :=
    Nat.mod_lt _ hpos
  have hget : ((fbTemplatesFor currency).get? (i % (fbTemplatesFor currency).length)).getD
      ⟨"", ""⟩ = (fbTemplatesFor currency)[i % (fbTemplatesFor currency).length] := by
    rw [List.get?_eq_getElem?, List.getElem?_eq_getElem hmod]
    rfl
  rw [hget]
  set t := (fbTemplatesFor currency)[i % (fbTemplatesFor currency).length] with htdef
  have httl : t.title ∈ titlesFor currency :=
    List.mem_map_of_mem NewsTemplate.title (List.getElem_mem hmod)
  by_cases hmem : t.title ++ " (" ++ currency ++ ")" ∈ st.usedTitles
  · rw [if_pos hmem]; exact hinv
  rw [if_neg hmem]
  have hfresh : t.title ∉ st.articles.map NewsItem.title := by
    intro hcol
    obtain ⟨a0, ha0, ha0t⟩ := List.mem_map.mp hcol
    obtain ⟨c0, hc0V, hc0t, hc0k⟩ := hinv.2 a0 ha0
    have hceq : c0 = currency := by
      refine titles_disjoint c0 hc0V currency hc a0.title hc0t ?_
      rw [ha0t]
      exact httl
    rw [hceq, ha0t] at hc0k
    exact hmem hc0k
  constructor
  · rw [List.map_append]
    refine List.Nodup.append hinv.1 (List.nodup_singleton _) ?_
    intro b hb hb2
    have : b = t.title := by
      simpa [fbMkCurrencyArticle] using hb2
    rw [this] at hb
    exact hfresh hb
  · intro a ha
    rcases List.mem_append.mp ha with h | h
    · obtain ⟨c0, hc0V, hc0t, hc0k⟩ := hinv.2 a h
      exact ⟨c0, hc0V, hc0t, List.mem_append_left _ hc0k⟩
    · have haeq : a = fbMkCurrencyArticle now rng currency cIdx i st.articles.length t :=
        List.mem_singleton.mp h
      refine ⟨currency, hc, ?_, ?_⟩
      · rw [haeq]; exact httl
      · rw [haeq]
        exact List.mem_append_right _ (List.mem_singleton_self _)

theorem fbCurrencyStep_preserves (now : Int) (rng : Nat → Nat) (cIdx : Nat)
    (currency : String) (hc : currency ∈ fbValidSymbols) (st : FbState)
    (hinv : CurInv st) : CurInv (fbCurrencyStep now rng cIdx currency st) := by
  unfold fbCurrencyStep
  exact foldl_hold _ _ hinv (fun st' i h => fbInnerStep_preserves now rng currency hc cIdx i st' h)

theorem fbCurrencyPhase_preserves (now : Int) (rng : Nat → Nat) :
    ∀ (l : List String) (cIdx : Nat) (st : FbState),
      (∀ c ∈ l, c ∈ fbValidSymbols) → CurInv st →
      CurInv (fbCurrencyPhase now rng cIdx l st)
  | [], _, _, _, hinv => hinv
  | c :: rest, cIdx, st, hv, hinv =>
    fbCurrencyPhase_preserves now rng rest (cIdx + 1) _
      (fun x hx => hv x (List.mem_cons_of_mem _ hx))
      (fbCurrencyStep_preserves now rng cIdx c (hv c (List.mem_cons_self _ _)) st hinv)

theorem fbGeneralStep_preserves (now : Int) (rng : Nat → Nat)
    (currencies : List String) (idx : Nat) (t : NewsTemplate)
    (ht : t ∈ generalNews) (st : FbState) (hinv : GenInv st) :
    GenInv (fbGeneralStep now rng currencies idx t st) := by
  unfold fbGeneralStep
  by_cases hlen : st.articles.length ≥ 10
  · rw [if_pos hlen]; exact hinv
  rw [if_neg hlen]
  by_cases hmem : t.title ∈ st.usedTitles
  · rw [if_pos hmem]; exact hinv
  rw [if_neg hmem]
  have htg : t.title ∈ generalTitles := List.mem_map_of_mem NewsTemplate.title ht
  have hfresh : t.title ∉ st.articles.map NewsItem.title := by
    intro hcol
    obtain ⟨a0, ha0, ha0t⟩ := List.mem_map.mp hcol
    rcases (hinv.2 a0 ha0).2 with ⟨_, hnot⟩ | hused
    · rw [ha0t] at hnot
      exact hnot htg
    · rw [ha0t] at hused
      exact hmem hused
  constructor
  · rw [List.map_append]
    refine List.Nodup.append hinv.1 (List.nodup_singleton _) ?_
    intro b hb hb2
    have : b = t.title := by simpa using hb2
    rw [this] at hb
    exact hfresh hb
  · intro a ha
    rcases List.mem_append.mp ha with h | h
    · obtain ⟨hne, hrest⟩ := hinv.2 a h
      refine ⟨hne, ?_⟩
      rcases hrest with hl | hr
      · exact Or.inl hl
      · exact Or.inr (List.mem_append_left _ hr)
    · have haeq := List.mem_singleton.mp h
      rw [haeq]
      refine ⟨general_titles_nonempty _ htg, Or.inr ?_⟩
      exact List.mem_append_right _ (List.mem_singleton_self _)

theorem fbGeneralPhase_preserves (now : Int) (rng : Nat → Nat)
    (currencies : List String) :
    ∀ (l : List NewsTemplate) (idx : Nat) (st : FbState),
      (∀ x ∈ l, x ∈ generalNews) → GenInv st →
      GenInv (fbGeneralPhase now rng currencies idx l st)
  | [], _, _, _, hinv => hinv
  | x :: rest, idx, st, hv, hinv =>
    fbGeneralPhase_preserves now rng currencies rest (idx + 1) _
      (fun y hy => hv y (List.mem_cons_of_mem _ hy))
      (fbGeneralStep_preserves now rng currencies idx x
        (hv x (List.mem_cons_self _ _)) st hinv)

theorem fbInnerStep_len_le (now : Int) (rng : Nat → Nat) (currency : String)
    (cIdx : Nat) (templates : List NewsTemplate) (st : FbState) (i : Nat) :
    st.articles.length ≤ (fbInnerStep now rng currency cIdx templates st i).articles.length := by
  unfold fbInnerStep
  by_cases h1 : st.articles.length < 10
  · rw [if_pos h1]
    dsimp only
    split
    · exact le_refl _
    · simp
  · rw [if_neg h1]

theorem fbInner_foldl_len_le (now : Int) (rng : Nat → Nat) (currency : String)
    (cIdx : Nat) (templates : List NewsTemplate) :
    ∀ (l : List Nat) (st : FbState),
      st.articles.length ≤
        (l.foldl (fbInnerStep now rng currency cIdx templates) st).articles.length
  | [], _ => le_refl _
  | i :: rest, st =>
    le_trans (fbInnerStep_len_le now rng currency cIdx templates st i)
      (fbInner_foldl_len_le now rng currency cIdx templates rest _)

theorem fbCurrencyStep_len_le (now : Int) (rng : Nat → Nat) (cIdx : Nat)
    (currency : String) (st : FbState) :
    st.articles.length ≤ (fbCurrencyStep now rng cIdx currency st).articles.length := by
  unfold fbCurrencyStep
  exact fbInner_foldl_len_le now rng currency cIdx _ _ st

theorem fbCurrencyPhase_len_le (now : Int) (rng : Nat → Nat) :
    ∀ (l : List String) (cIdx : Nat) (st : FbState),
      st.articles.length ≤ (fbCurrencyPhase now rng cIdx l st).articles.length
  | [], _, _ => le_refl _
  | c :: rest, cIdx, st =>
    le_trans (fbCurrencyStep_len_le now rng cIdx c st)
      (fbCurrencyPhase_len_le now rng rest (cIdx + 1) _)

theorem fbGeneralStep_len_le (now : Int) (rng : Nat → Nat)
    (currencies : List String) (idx : Nat) (t : NewsTemplate) (st : FbState) :
    st.articles.length ≤ (fbGeneralStep now rng currencies idx t st).articles.length := by
  unfold fbGeneralStep
  split
  · exact le_refl _
  · split
    · exact le_refl _
    · simp

theorem fbGeneralPhase_len_le (now : Int) (rng : Nat → Nat)
    (currencies : List String) :
    ∀ (l : List NewsTemplate) (idx : Nat) (st : FbState),
      st.articles.length ≤
        (fbGeneralPhase now rng currencies idx l st).articles.length
  | [], _, _ => le_refl _
  | t :: rest, idx, st =>
    le_trans (fbGeneralStep_len_le now rng currencies idx t st)
      (fbGeneralPhase_len_le now rng currencies rest (idx + 1) _)

theorem fbCurrencyStep_len_pos (now : Int) (rng : Nat → Nat) (cIdx : Nat)
    (currency : String) (hc : currency ∈ fbValidSymbols) :
    0 < (fbCurrencyStep now rng cIdx currency (⟨[], []⟩ : FbState)).articles.length := by
  show 0 < ((List.range (min 3 (fbTemplatesFor currency).length)).foldl
    (fbInnerStep now rng currency cIdx (fbTemplatesFor currency)) ⟨[], []⟩).articles.length
  have hpos : 0 < (fbTemplatesFor currency).length := templates_nonempty currency hc
  have h1 : min 3 (fbTemplatesFor currency).length =
      (min 3 (fbTemplatesFor currency).length - 1) + 1 := by omega
  rw [h1, List.range_succ_eq_map, List.foldl_cons]
  refine lt_of_lt_of_le ?_ (fbInner_foldl_len_le now rng currency cIdx _ _ _)
  unfold fbInnerStep
  rw [if_pos (by decide : ((⟨[], []⟩ : FbState)).articles.length < 10)]
  rw [if_neg (List.not_mem_nil _)]
  simp

theorem fbCurrencyPhase_len_pos (now : Int) (rng : Nat → Nat) (c : String)
    (rest : List String) (hc : c ∈ fbValidSymbols) :
    0 < (fbCurrencyPhase now rng 0 (c :: rest) (⟨[], []⟩ : FbState)).articles.length := by
  show 0 < (fbCurrencyPhase now rng 1 rest
    (fbCurrencyStep now rng 0 c ⟨[], []⟩)).articles.length
  exact lt_of_lt_of_le (fbCurrencyStep_len_pos now rng 0 c hc)
    (fbCurrencyPhase_len_le now rng rest 1 _)

/- ----------------------------------------------------------------------
Claim C4 — the news fallback generator.
---------------------------------------------------------------------- -/

/-- Claim C4: for every list of 1 to 10 valid asset symbols, the fallback
news generator returns 1 to 10 articles, every title non-empty, no two
articles sharing a title, and `publishedAt` non-increasing across the
returned list (newest first). -/
theorem fallback_news_properties (now : Int) (rng : Nat → Nat)
    (currencies : List String) (hne : currencies ≠ [])
    (hlen : currencies.length ≤ 10)
    (hvalid : ∀ c ∈ currencies, c ∈ fbValidSymbols) :
    1 ≤ (generateFallbackNews now rng currencies).length ∧
    (generateFallbackNews now rng currencies).length ≤ 10 ∧
    (∀ a ∈ generateFallbackNews now rng currencies, a.title ≠ "") ∧
    ((generateFallbackNews now rng currencies).map NewsItem.title).Nodup ∧
    (generateFallbackNews now rng currencies).Pairwise
      (fun a b => b.publishedAt ≤ a.publishedAt) := by
  obtain ⟨c, rest, rfl⟩ : ∃ c rest, currencies = c :: rest := by
    cases currencies with
    | nil => exact absurd rfl hne
    | cons c rest => exact ⟨c, rest, rfl⟩
  have hout : generateFallbackNews now rng (c :: rest) =
      (List.insertionSort newsAfter
        (if (fbCurrencyPhase now rng 0 (c :: rest) ⟨[], []⟩).articles.length < 10 then
          fbGeneralPhase now rng (c :: rest) 0 generalNews
            (fbCurrencyPhase now rng 0 (c :: rest) ⟨[], []⟩)
        else fbCurrencyPhase now rng 0 (c :: rest) ⟨[], []⟩).articles).take 10 := rfl
  set st1 := fbCurrencyPhase now rng 0 (c :: rest) (⟨[], []⟩ : FbState) with hst1
  set st2 := if st1.articles.length < 10 then
      fbGeneralPhase now rng (c :: rest) 0 generalNews st1
    else st1 with hst2
  have hinv1 : CurInv st1 := by
    rw [hst1]
    refine fbCurrencyPhase_preserves now rng (c :: rest) 0 _ hvalid ?_
    exact ⟨List.nodup_nil, fun a ha => absurd ha (List.not_mem_nil a)⟩
  have hinv2 : GenInv st2 := by
    rw [hst2]
    split
    · exact fbGeneralPhase_preserves now rng (c :: rest) generalNews 0 st1
        (fun x hx => hx) (cur_to_gen hinv1)
    · exact cur_to_gen hinv1
  have hpos1 : 0 < st1.articles.length :=
    fbCurrencyPhase_len_pos now rng c rest (hvalid c (List.mem_cons_self _ _))
  have hpos2 : 0 < st2.articles.length := by
    rw [hst2]
    split
    · exact lt_of_lt_of_le hpos1 (fbGeneralPhase_len_le now rng (c :: rest) generalNews 0 st1)
    · exact hpos1
  have hperm : (List.insertionSort newsAfter st2.articles).Perm st2.articles :=
    List.perm_insertionSort _ _
  have hsortlen : (List.insertionSort newsAfter st2.articles).length =
      st2.articles.length := hperm.length_eq
  have hsortedP : List.Sorted newsAfter (List.insertionSort newsAfter st2.articles) :=
    List.sorted_insertionSort _ _
  rw [hout]
  refine ⟨?_, ?_, ?_, ?_, ?_⟩
  · rw [List.length_take, hsortlen]
    exact Nat.le_min.mpr ⟨by omega, hpos2⟩
  · rw [List.length_take]
    exact Nat.min_le_left _ _
  · intro a ha
    have ha2 : a ∈ st2.articles := hperm.subset (List.take_subset _ _ ha)
    exact (hinv2.2 a ha2).1
  · rw [List.map_take]
    refine List.Nodup.sublist (List.take_sublist _ _) ?_
    exact ((hperm.map NewsItem.title).symm).nodup hinv2.1
  · exact List.Pairwise.sublist (List.take_sublist _ _) hsortedP

/-- Witness for claim C4 at the concrete input `["BTC", "ETH"]`. -/
theorem fallback_news_properties_witness :
    ((["BTC", "ETH"] : List String) ≠ [] ∧
     (["BTC", "ETH"] : List String).length ≤ 10 ∧
     (∀ c ∈ (["BTC", "ETH"] : List String), c ∈ fbValidSymbols)) ∧
    (1 ≤ (generateFallbackNews 0 (fun _ => 0) ["BTC", "ETH"]).length ∧
     (generateFallbackNews 0 (fun _ => 0) ["BTC", "ETH"]).length ≤ 10 ∧
     (∀ a ∈ generateFallbackNews 0 (fun _ => 0) ["BTC", "ETH"], a.title ≠ "") ∧
     ((generateFallbackNews 0 (fun _ => 0) ["BTC", "ETH"]).map NewsItem.title).Nodup ∧
     (generateFallbackNews 0 (fun _ => 0) ["BTC", "ETH"]).Pairwise
       (fun a b => b.publishedAt ≤ a.publishedAt)) :=
  ⟨⟨by decide, by decide, by decide⟩,
   fallback_news_properties 0 (fun _ => 0) ["BTC", "ETH"] (by decide) (by decide)
     (by decide)⟩
